import Mathlib

/-!
Verification of the morphing-tree scene engine (src/components/TreeScene.tsx).

The per-frame scheduler, easing curves and instance bookkeeping are pure
rational arithmetic and are embedded over `ℚ`; the spatial layout helpers
(`randomInSphere`, the gift spiral) use trigonometric functions and are
embedded over `ℝ`.
-/

/-- The MorphState enumeration (src/types.ts, `TreeMorphState`). -/
inductive TreeMorphState where
  | SCATTERED
  | TREE_SHAPE
deriving DecidableEq, Repr

open TreeMorphState

/-- THREE.MathUtils.lerp: `lerp(x, y, t) = (1 - t) * x + t * y`. -/
def lerpQ (x y t : ℚ) : ℚ := (1 - t) * x + t * y

/-- Numeric target of a morph state:
`config.morphState === TreeMorphState.TREE_SHAPE ? 1 : 0` (TreeScene.tsx line 304). -/
def targetProgress : TreeMorphState → ℚ
  | TREE_SHAPE => 1
  | SCATTERED => 0

/-- One scheduler step (TreeScene.tsx line 305):
`progress.current = THREE.MathUtils.lerp(progress.current, targetProgress, delta * 2.0)`. -/
def progressUpdate (st : TreeMorphState) (delta p : ℚ) : ℚ :=
  lerpQ p (targetProgress st) (delta * 2)

/-- Fold the scheduler over a sequence of frames, each frame supplying a
morph state and a frame delta. -/
def progressRun (frames : List (TreeMorphState × ℚ)) (p : ℚ) : ℚ :=
  frames.foldl (fun a f => progressUpdate f.1 f.2 a) p

/-- Helper: a single scheduler step with `delta * 2 ≤ 1` keeps the value
between the old value and the target. -/
theorem progressUpdate_mem (st : TreeMorphState) (delta p : ℚ)
    (h0 : 0 ≤ delta) (h1 : delta ≤ 1 / 2) (hp0 : 0 ≤ p) (hp1 : p ≤ 1) :
    0 ≤ progressUpdate st delta p ∧ progressUpdate st delta p ≤ 1 := by
  cases st <;>
    simp only [progressUpdate, lerpQ, targetProgress] <;>
    constructor <;> nlinarith

/-- C1 (counterexample): the raw claim admits arbitrary non-negative frame
deltas, but the scheduler does not clamp its lerp factor `delta * 2.0`.
Starting from the initial progress value 1 with the SCATTERED target 0, a
single frame of 1 second produces progress −1: it leaves [0,1] and crosses
to the far side of the target. -/
theorem progress_overshoot_cex :
    progressUpdate TreeMorphState.SCATTERED 1 1 < 0 := by
  norm_num [progressUpdate, lerpQ, targetProgress]

/-- C1 (amended): provided every frame delta is at most 1/2 second (so the
lerp factor `delta * 2.0` never exceeds 1), the scheduler's progress value
stays in [0,1] under any interleaving of morph states, and each step toward
a fixed target is monotone: the distance |target − progress| does not
increase and progress never crosses to the far side of the target. -/
theorem progress_bounded_monotone :
    (∀ (frames : List (TreeMorphState × ℚ)) (p : ℚ),
      (∀ f ∈ frames, 0 ≤ f.2 ∧ f.2 ≤ 1 / 2) → 0 ≤ p → p ≤ 1 →
      0 ≤ progressRun frames p ∧ progressRun frames p ≤ 1) ∧
    (∀ (st : TreeMorphState) (delta p : ℚ), 0 ≤ delta → delta ≤ 1 / 2 →
      |targetProgress st - progressUpdate st delta p| ≤ |targetProgress st - p| ∧
      (p ≤ targetProgress st → progressUpdate st delta p ≤ targetProgress st) ∧
      (targetProgress st ≤ p → targetProgress st ≤ progressUpdate st delta p)) := by
  constructor
  · intro frames
    induction frames with
    | nil => intro p _ hp0 hp1; exact ⟨hp0, hp1⟩
    | cons f rest ih =>
      intro p hf hp0 hp1
      have hstep := progressUpdate_mem f.1 f.2 p
        (hf f (List.mem_cons_self f rest)).1 (hf f (List.mem_cons_self f rest)).2 hp0 hp1
      have := ih (progressUpdate f.1 f.2 p)
        (fun g hg => hf g (List.mem_cons_of_mem f hg)) hstep.1 hstep.2
      simpa [progressRun] using this
  · intro st delta p h0 h1
    have key : targetProgress st - progressUpdate st delta p
        = (targetProgress st - p) * (1 - delta * 2) := by
      simp only [progressUpdate, lerpQ]; ring
    refine ⟨?_, ?_, ?_⟩
    · rw [key, abs_mul]
      have : |1 - delta * 2| ≤ 1 := by rw [abs_le]; constructor <;> linarith
      calc |targetProgress st - p| * |1 - delta * 2|
          ≤ |targetProgress st - p| * 1 :=
            mul_le_mul_of_nonneg_left this (abs_nonneg _)
        _ = |targetProgress st - p| := mul_one _
    · intro hle
      have : 0 ≤ (targetProgress st - p) * (1 - delta * 2) := by nlinarith
      linarith [key ▸ this]
    · intro hge
      have : (targetProgress st - p) * (1 - delta * 2) ≤ 0 := by nlinarith
      linarith [key ▸ this]

/-- C1 (witness): a concrete run — one 1/2-second SCATTERED frame from
progress 1 stays in [0,1], and a 1/4-second step from 1 toward 0 does not
cross the target. -/
theorem progress_bounded_monotone_witness :
    (0 ≤ progressRun [(TreeMorphState.SCATTERED, 1 / 2)] 1 ∧
      progressRun [(TreeMorphState.SCATTERED, 1 / 2)] 1 ≤ 1) ∧
    (targetProgress TreeMorphState.SCATTERED ≤ 1 →
      targetProgress TreeMorphState.SCATTERED ≤
        progressUpdate TreeMorphState.SCATTERED (1 / 4) 1) := by
  constructor
  · exact progress_bounded_monotone.1 [(TreeMorphState.SCATTERED, 1 / 2)] 1
      (by intro f hf; simp at hf; simp [hf]) (by norm_num) (by norm_num)
  · exact (progress_bounded_monotone.2 TreeMorphState.SCATTERED (1 / 4) 1
      (by norm_num) (by norm_num)).2.2

/-- C2 (counterexample): the update is not frame-rate independent. With the
TREE target, starting at progress 0, two consecutive 1/4-second updates give
3/4, while a single 1/2-second update gives 1. -/
theorem progress_not_rate_independent_cex :
    progressUpdate TreeMorphState.TREE_SHAPE (1 / 4)
        (progressUpdate TreeMorphState.TREE_SHAPE (1 / 4) 0) ≠
      progressUpdate TreeMorphState.TREE_SHAPE (1 / 2) 0 := by
  norm_num [progressUpdate, lerpQ, targetProgress]

/-- C2 (amended): the per-frame update is the linear form
`progress += (target − progress) · (2 · dt)` — a first-order approximation of
the exponential form, not the exponential form itself — and composing two
updates differs from a single update over the summed time by exactly
`4 · d1 · d2 · (target − progress)`, so it is frame-rate dependent whenever
both deltas are nonzero and progress has not reached the target. -/
theorem progress_linear_step :
    ∀ (st : TreeMorphState) (d1 d2 p : ℚ),
      progressUpdate st d1 p = p + (targetProgress st - p) * (2 * d1) ∧
      progressUpdate st d2 (progressUpdate st d1 p) =
        progressUpdate st (d1 + d2) p - 4 * d1 * d2 * (targetProgress st - p) := by
  intro st d1 d2 p
  cases st <;> constructor <;>
    simp only [progressUpdate, lerpQ, targetProgress] <;> ring

/-- THREE.MathUtils.clamp: `clamp(value, min, max) = max(min, Math.min(max, value))`. -/
def clampQ (v lo hi : ℚ) : ℚ := max lo (min hi v)

/-- Symmetric cubic ease-in-out of the raw progress (TreeScene.tsx line 309):
`t < 0.5 ? 4 * t * t * t : 1 - Math.pow(-2 * t + 2, 3) / 2`. -/
def smoothT (t : ℚ) : ℚ :=
  if t < 1 / 2 then 4 * t * t * t else 1 - (-2 * t + 2) ^ 3 / 2

/-- Heavy-instance lagged factor (TreeScene.tsx line 346):
`Math.max(0, smoothT - 0.1)`. -/
def heavyT (t : ℚ) : ℚ := max 0 (smoothT t - 1 / 10)

/-- Heavy-instance effective blend factor (TreeScene.tsx line 348):
`THREE.MathUtils.clamp(heavyT * 1.1, 0, 1)`. -/
def effectiveT (t : ℚ) : ℚ := clampQ (heavyT t * (11 / 10)) 0 1

/-- Helper: the eased factor stays in [0,1] on [0,1]. -/
theorem smoothT_mem (t : ℚ) (h0 : 0 ≤ t) (h1 : t ≤ 1) :
    0 ≤ smoothT t ∧ smoothT t ≤ 1 := by
  unfold smoothT
  split
  · have hsq : t * t ≤ 1 / 4 := by nlinarith
    constructor
    · nlinarith [mul_nonneg (mul_nonneg h0 h0) h0]
    · nlinarith [mul_nonneg h0 h0]
  · have hu0 : 0 ≤ 1 - t := by linarith
    have hu : 1 - t ≤ 1 / 2 := by linarith
    have hsq : (1 - t) * (1 - t) ≤ 1 / 4 := by nlinarith
    constructor
    · nlinarith [mul_nonneg hu0 hu0]
    · nlinarith [mul_nonneg (mul_nonneg hu0 hu0) hu0]

/-- C3 (counterexample): at progress 1 the eased factor is 1 (above the claimed
~0.91 saturation point) yet the heavy-instance effective factor is
`clamp(0.9 · 1.1, 0, 1) = 0.99`, not 1 — the claimed post-rescale saturation
never happens because the boost factor is 1.1, less than 1/0.9. -/
theorem effectiveT_saturation_cex :
    91 / 100 < smoothT 1 ∧ effectiveT 1 ≠ smoothT 1 := by
  constructor <;> norm_num [smoothT, effectiveT, heavyT, clampQ]

/-- C3 (amended): for every progress t in [0,1], the heavy-instance effective
factor never exceeds the light-instance eased factor, and whenever the eased
factor is positive the effective factor is strictly below it — so equality
holds only at eased factor 0, and the upper clamp never saturates on [0,1]
(at full assembly the effective factor is 0.99 < 1). -/
theorem effectiveT_le_smoothT (t : ℚ) (h0 : 0 ≤ t) (h1 : t ≤ 1) :
    effectiveT t ≤ smoothT t ∧ (0 < smoothT t → effectiveT t < smoothT t) := by
  obtain ⟨hs0, hs1⟩ := smoothT_mem t h0 h1
  unfold effectiveT heavyT clampQ
  rcases le_or_lt (smoothT t) (1 / 10) with hlo | hlo
  · have hmax : max 0 (smoothT t - 1 / 10) = 0 := by
      rw [max_eq_left]; linarith
    rw [hmax]
    constructor
    · simpa using hs0
    · intro hpos; simpa using hpos
  · have hmax : max 0 (smoothT t - 1 / 10) = smoothT t - 1 / 10 := by
      rw [max_eq_right]; linarith
    rw [hmax]
    have hle : min 1 ((smoothT t - 1 / 10) * (11 / 10)) ≤
        (smoothT t - 1 / 10) * (11 / 10) := min_le_right _ _
    have hlt : (smoothT t - 1 / 10) * (11 / 10) < smoothT t := by nlinarith
    constructor
    · rw [max_le_iff]; exact ⟨by linarith, by linarith⟩
    · intro _
      rw [max_lt_iff]; exact ⟨by linarith, by linarith⟩

/-- C3 (witness): at progress 1/2 the eased factor is 1/2 and the effective
factor 0.44 is strictly below it. -/
theorem effectiveT_le_smoothT_witness :
    effectiveT (1 / 2) ≤ smoothT (1 / 2) ∧
      (0 < smoothT (1 / 2) → effectiveT (1 / 2) < smoothT (1 / 2)) :=
  effectiveT_le_smoothT (1 / 2) (by norm_num) (by norm_num)

/-- One write attempt of the ornament fill loop (TreeScene.tsx lines 243-256):
`if (oIdx >= sphereCount) break;` then write at `oIdx` and increment. The
state is the list of indices written so far together with `oIdx`; since
`oIdx` only grows, guarding every iteration is equivalent to the `break`. -/
def ornamentStep (s : List ℕ × ℕ) : List ℕ × ℕ :=
  if s.2 ≥ 120 then s else (s.1 ++ [s.2], s.2 + 1)

/-- The full ornament generation loop: 5 rings, ring i attempting
`count = 10 + i * 4` writes (TreeScene.tsx lines 241-257), starting from an
empty buffer and `oIdx = 0`. Returns the written indices and the final `oIdx`. -/
def ornamentGen : List ℕ × ℕ :=
  (List.range 5).foldl
    (fun s i => (List.range (10 + i * 4)).foldl (fun a _ => ornamentStep a) s)
    ([], 0)

set_option maxRecDepth 8192 in
/-- C5: the ornament generation produces exactly min(120, 10+14+18+22+26) = 90
elements, and every index written into the scatter and tree buffers is
strictly below the 120-element cap. -/
theorem ornamentGen_count :
    ornamentGen.2 = min 120 (10 + 14 + 18 + 22 + 26) ∧
    ornamentGen.2 = 90 ∧
    ornamentGen.1.all (fun k => k < 120) = true := by
  refine ⟨?_, ?_, ?_⟩ <;> decide

/-- Heavy-instance rotation written each frame (TreeScene.tsx lines 353-363):
below the 0.99 threshold the seeded time-driven rotation
`(rot0 + time * 0.1, rot1 + time * 0.1, rot2)`, at or above it
`dummy.rotation.set(0, 0, 0)`. `t` is the raw progress value. -/
def giftRotationAt (t time : ℚ) (seed : ℚ × ℚ × ℚ) : ℚ × ℚ × ℚ :=
  if t < 99 / 100 then
    (seed.1 + time * (1 / 10), seed.2.1 + time * (1 / 10), seed.2.2)
  else (0, 0, 0)

/-- C6: whenever the raw progress is at least the 0.99 assembly threshold, the
heavy-instance orientation is exactly zero on all three axes, for every
element seed and every clock time. -/
theorem giftRotation_snaps (t time : ℚ) (seed : ℚ × ℚ × ℚ)
    (h : 99 / 100 ≤ t) : giftRotationAt t time seed = (0, 0, 0) := by
  unfold giftRotationAt
  rw [if_neg (not_lt.mpr h)]

/-- C6 (witness): at progress 1 (fully assembled) a concrete seeded element
has zero rotation. -/
theorem giftRotation_snaps_witness :
    giftRotationAt 1 7 (1 / 3, 1 / 5, 1 / 7) = (0, 0, 0) :=
  giftRotation_snaps 1 7 (1 / 3, 1 / 5, 1 / 7) (by norm_num)

/-- The C7 scenario: progress starts at 1 (the TREE steady state), the state
is toggled to SCATTERED, and the scheduler runs with a fixed 1/60-second
frame delta. -/
def schedSim : ℕ → ℚ
  | 0 => 1
  | n + 1 => progressUpdate TreeMorphState.SCATTERED (1 / 60) (schedSim n)

/-- Helper: the simulated run is the geometric sequence (29/30)^n. -/
theorem schedSim_eq (n : ℕ) : schedSim n = (29 / 30 : ℚ) ^ n := by
  induction n with
  | zero => simp [schedSim]
  | succ k ih =>
    simp only [schedSim, progressUpdate, lerpQ, targetProgress, ih, pow_succ]
    ring

/-- C7: after 300 scheduler updates of 1/60 second each (5 simulated seconds
at 60 fps) from progress 1 toward the SCATTERED target 0, the progress value
is within 1e-3 of 0. -/
theorem schedSim_converges : |schedSim 300 - 0| ≤ 1 / 1000 := by
  rw [schedSim_eq, sub_zero, abs_of_nonneg (by positivity)]
  rw [div_pow, div_le_div_iff₀ (by positivity) (by norm_num)]
  norm_num

/-- Whole-assembly rotation speed multiplier (TreeScene.tsx line 299):
`config.morphState === TreeMorphState.SCATTERED ? 0.2 : 1.0`. -/
def speedMult : TreeMorphState → ℚ
  | SCATTERED => 1 / 5
  | TREE_SHAPE => 1

/-- THREE.Vector3.lerpVectors: componentwise `v1 + (v2 - v1) * alpha`. -/
def lerpVec (a b : ℝ × ℝ × ℝ) (t : ℝ) : ℝ × ℝ × ℝ :=
  (a.1 + (b.1 - a.1) * t, a.2.1 + (b.2.1 - a.2.1) * t, a.2.2 + (b.2.2 - a.2.2) * t)

/-- Light-instance per-frame position (TreeScene.tsx lines 322-330):
lerp between scatter and tree at the eased factor, plus the fast vertical
float `sin(time * 2.0 + i) * 0.1 * (1 - smoothT)` while `t < 0.99`. -/
noncomputable def ornamentPos (scatter tree : ℝ × ℝ × ℝ) (t sT time : ℚ)
    (i : ℕ) : ℝ × ℝ × ℝ :=
  let base := lerpVec scatter tree (sT : ℝ)
  if t < 99 / 100 then
    (base.1, base.2.1 + Real.sin ((time : ℝ) * 2 + i) * (1 / 10) * (1 - (sT : ℝ)),
      base.2.2)
  else base

/-- Heavy-instance per-frame position (TreeScene.tsx lines 342-358):
lerp between scatter and tree at the effective factor, plus the slow vertical
float `sin(time * 0.5 + i) * 0.05 * (1 - effectiveT)` while `t < 0.99`. -/
noncomputable def giftPos (scatter tree : ℝ × ℝ × ℝ) (t eT time : ℚ)
    (i : ℕ) : ℝ × ℝ × ℝ :=
  let base := lerpVec scatter tree (eT : ℝ)
  if t < 99 / 100 then
    (base.1, base.2.1 + Real.sin ((time : ℝ) * (1 / 2) + i) * (1 / 20) * (1 - (eT : ℝ)),
      base.2.2)
  else base

/-- The per-scene mutable state together with the generation-time endpoint
buffers: foliage scatter/target attributes, ornament and gift scatter/tree
buffers and gift rotation seeds (all written once in the `useMemo` block,
TreeScene.tsx lines 190-290), the scheduler's progress, the assembly yaw,
the foliage shader uniforms, and the per-frame instance transform outputs. -/
structure SceneState where
  progress : ℚ
  rotationY : ℚ
  uTime : ℚ
  uProgress : ℚ
  foliageScatter : ℕ → ℝ × ℝ × ℝ
  foliageTarget : ℕ → ℝ × ℝ × ℝ
  ornScatter : ℕ → ℝ × ℝ × ℝ
  ornTree : ℕ → ℝ × ℝ × ℝ
  giftScatter : ℕ → ℝ × ℝ × ℝ
  giftTree : ℕ → ℝ × ℝ × ℝ
  giftRotSeed : ℕ → ℚ × ℚ × ℚ
  ornMatrix : ℕ → ℝ × ℝ × ℝ
  giftMatrixPos : ℕ → ℝ × ℝ × ℝ
  giftMatrixRot : ℕ → ℚ × ℚ × ℚ

/-- The external inputs of one `useFrame` callback: the config fields the
frame reads, the frame delta, and the clock's elapsed time. -/
structure FrameInput where
  morphState : TreeMorphState
  rotationSpeed : ℚ
  delta : ℚ
  time : ℚ

/-- One `useFrame` tick (TreeScene.tsx lines 297-372): advance the yaw by
`delta * rotationSpeed * speedMult`, advance the scheduler, write the foliage
uniforms, and rewrite every instance transform from the (read-only) endpoint
buffers and the new progress value. -/
noncomputable def frameUpdate (inp : FrameInput) (s : SceneState) : SceneState :=
  let p := progressUpdate inp.morphState inp.delta s.progress
  let sT := smoothT p
  let eT := effectiveT p
  { s with
    rotationY := s.rotationY + inp.delta * inp.rotationSpeed * speedMult inp.morphState
    progress := p
    uTime := inp.time
    uProgress := p
    ornMatrix := fun i => ornamentPos (s.ornScatter i) (s.ornTree i) p sT inp.time i
    giftMatrixPos := fun i => giftPos (s.giftScatter i) (s.giftTree i) p eT inp.time i
    giftMatrixRot := fun i => giftRotationAt p inp.time (s.giftRotSeed i) }

/-- Fold `frameUpdate` over a sequence of frame inputs. -/
noncomputable def frameRun (inputs : List FrameInput) (s : SceneState) : SceneState :=
  inputs.foldl (fun a i => frameUpdate i a) s

/-- C8: each frame the yaw increment is exactly
`delta * rotationSpeed * speedMult`, where the multiplier is 0.2 for
SCATTERED and 1.0 for TREE_SHAPE; the multiplier is a function of the
MorphState flag alone — the equation holds for every scene state, whatever
its progress value, so the speed change is instantaneous on toggling. -/
theorem rotation_speed_mult :
    (∀ (inp : FrameInput) (s : SceneState),
      (frameUpdate inp s).rotationY =
        s.rotationY + inp.delta * inp.rotationSpeed * speedMult inp.morphState) ∧
    speedMult TreeMorphState.SCATTERED = 1 / 5 ∧
    speedMult TreeMorphState.TREE_SHAPE = 1 := by
  refine ⟨fun inp s => rfl, rfl, rfl⟩

/-- C9: the generation-time endpoint buffers — foliage scatter/target,
ornament scatter/tree, gift scatter/tree — and the gift rotation seeds are
never written by the per-frame update: after any number of frames, under any
interleaving of morph states, deltas and clock times, every endpoint buffer
equals its value at generation. -/
theorem endpoints_immutable :
    ∀ (inputs : List FrameInput) (s : SceneState),
      (frameRun inputs s).foliageScatter = s.foliageScatter ∧
      (frameRun inputs s).foliageTarget = s.foliageTarget ∧
      (frameRun inputs s).ornScatter = s.ornScatter ∧
      (frameRun inputs s).ornTree = s.ornTree ∧
      (frameRun inputs s).giftScatter = s.giftScatter ∧
      (frameRun inputs s).giftTree = s.giftTree ∧
      (frameRun inputs s).giftRotSeed = s.giftRotSeed := by
  intro inputs
  induction inputs with
  | nil => intro s; exact ⟨rfl, rfl, rfl, rfl, rfl, rfl, rfl⟩
  | cons inp rest ih =>
    intro s
    have hstep := ih (frameUpdate inp s)
    simpa [frameRun, frameUpdate] using hstep

/-- Gift spiral azimuth (TreeScene.tsx line 269):
`theta = (i / giftCount) * Math.PI * 10` with `giftCount = 25`. -/
noncomputable def giftTheta (i : ℕ) : ℝ := ((i : ℝ) / 25) * Real.pi * 10

/-- Gift spiral height (TreeScene.tsx line 270):
`y = -1.5 + (i / giftCount) * 4.5`. -/
noncomputable def giftY (i : ℕ) : ℝ := -1.5 + ((i : ℝ) / 25) * 4.5

/-- Gift spiral radius (TreeScene.tsx line 271):
`r = 2.4 * (1 - (i / giftCount) * 0.8)`. -/
noncomputable def giftR (i : ℕ) : ℝ := 2.4 * (1 - ((i : ℝ) / 25) * 0.8)

/-- Gift tree-formation position (TreeScene.tsx lines 273-275):
`(cos(theta) * r, y, sin(theta) * r)`. -/
noncomputable def giftTreePos (i : ℕ) : ℝ × ℝ × ℝ :=
  (Real.cos (giftTheta i) * giftR i, giftY i, Real.sin (giftTheta i) * giftR i)

/-- Modelled from the claim's words: membership of a position on a spiral
over 25 indices whose azimuth sweeps the given number of full turns across
the full index range, whose height rises linearly from −1.5 over a span of
4.5, and whose radius shrinks linearly from 2.4 by factor 0.8. -/
def onSpiralTurns (turns : ℝ) (i : ℕ) (pos : ℝ × ℝ × ℝ) : Prop :=
  pos = (Real.cos (((i : ℝ) / 25) * (turns * (2 * Real.pi))) * (2.4 * (1 - ((i : ℝ) / 25) * 0.8)),
    -1.5 + ((i : ℝ) / 25) * 4.5,
    Real.sin (((i : ℝ) / 25) * (turns * (2 * Real.pi))) * (2.4 * (1 - ((i : ℝ) / 25) * 0.8)))

/-- C4 (counterexample): the gift at index 1 does not lie on the 10-full-turn
spiral of the claim: the code's azimuth at index 1 is 2π/5 (cosine positive)
while a 10-turn sweep would put it at 4π/5 (cosine negative), and the radius
there is positive, so the x-coordinates differ. -/
theorem gift_spiral_turns_cex : ¬ onSpiralTurns 10 1 (giftTreePos 1) := by
  unfold onSpiralTurns giftTreePos giftTheta giftY giftR
  intro h
  simp only [Prod.mk.injEq, Nat.cast_one] at h
  obtain ⟨h1, _, _⟩ := h
  have e1 : (1 : ℝ) / 25 * Real.pi * 10 = 2 * Real.pi / 5 := by ring
  have e2 : (1 : ℝ) / 25 * (10 * (2 * Real.pi)) = 4 * Real.pi / 5 := by ring
  rw [e1, e2] at h1
  have hpi := Real.pi_pos
  have hc1 : 0 < Real.cos (2 * Real.pi / 5) :=
    Real.cos_pos_of_mem_Ioo ⟨by linarith, by linarith⟩
  have hc2 : Real.cos (4 * Real.pi / 5) < 0 :=
    Real.cos_neg_of_pi_div_two_lt_of_lt (by linarith) (by linarith)
  have hr : (0 : ℝ) < 2.4 * (1 - 1 / 25 * 0.8) := by norm_num
  nlinarith

/-- C4 (amended): for every heavy-instance index, the generated tree position
lies on the spiral whose azimuth sweeps 5 full turns (10π radians, not 10
full turns) across the full index range, whose height rises linearly with i
from −1.5 over a span of 4.5, and whose radius shrinks linearly with i from
2.4 by factor 0.8. -/
theorem gift_spiral_five_turns (i : ℕ) : onSpiralTurns 5 i (giftTreePos i) := by
  unfold onSpiralTurns giftTreePos giftTheta giftY giftR
  have e : ((i : ℝ) / 25) * (5 * (2 * Real.pi)) = ((i : ℝ) / 25) * Real.pi * 10 := by
    ring
  rw [e]

/-- Scatter sampler (TreeScene.tsx lines 130-142, `randomInSphere`): with
draws u, v, w in [0,1), `theta = 2π·u`, `phi = acos(2v − 1)`,
`r = cbrt(w) · radius`, the point is
`(r·sin(phi)·cos(theta), r·sin(phi)·sin(theta) + biasY, r·cos(phi))`. -/
noncomputable def randomInSphere (radius biasY u v w : ℝ) : ℝ × ℝ × ℝ :=
  (w ^ ((1 : ℝ) / 3) * radius * Real.sin (Real.arccos (2 * v - 1)) *
      Real.cos (2 * Real.pi * u),
    w ^ ((1 : ℝ) / 3) * radius * Real.sin (Real.arccos (2 * v - 1)) *
      Real.sin (2 * Real.pi * u) + biasY,
    w ^ ((1 : ℝ) / 3) * radius * Real.cos (Real.arccos (2 * v - 1)))

/-- C10: for every radius ≥ 0, every vertical bias, and all random draws in
[0,1), the sampled point lies inside the closed ball of the given radius
centered at the bias offset point (0, biasY, 0). -/
theorem randomInSphere_in_ball (radius biasY u v w : ℝ)
    (hrad : 0 ≤ radius) (_hu0 : 0 ≤ u) (_hu1 : u < 1) (_hv0 : 0 ≤ v)
    (_hv1 : v < 1) (hw0 : 0 ≤ w) (hw1 : w < 1) :
    Real.sqrt ((randomInSphere radius biasY u v w).1 ^ 2 +
        ((randomInSphere radius biasY u v w).2.1 - biasY) ^ 2 +
        (randomInSphere radius biasY u v w).2.2 ^ 2) ≤ radius := by
  have hcb : 0 ≤ w ^ ((1 : ℝ) / 3) := Real.rpow_nonneg hw0 _
  have hc0 : 0 ≤ w ^ ((1 : ℝ) / 3) * radius := mul_nonneg hcb hrad
  have hsum : (randomInSphere radius biasY u v w).1 ^ 2 +
      ((randomInSphere radius biasY u v w).2.1 - biasY) ^ 2 +
      (randomInSphere radius biasY u v w).2.2 ^ 2 =
      (w ^ ((1 : ℝ) / 3) * radius) ^ 2 := by
    have ht := Real.sin_sq_add_cos_sq (2 * Real.pi * u)
    have hp := Real.sin_sq_add_cos_sq (Real.arccos (2 * v - 1))
    simp only [randomInSphere, add_sub_cancel_right]
    linear_combination ((w ^ ((1 : ℝ) / 3) * radius) ^ 2 *
        Real.sin (Real.arccos (2 * v - 1)) ^ 2) * ht +
      (w ^ ((1 : ℝ) / 3) * radius) ^ 2 * hp
  rw [hsum, Real.sqrt_sq hc0]
  have hone : w ^ ((1 : ℝ) / 3) ≤ 1 :=
    Real.rpow_le_one hw0 (le_of_lt hw1) (by norm_num)
  calc w ^ ((1 : ℝ) / 3) * radius ≤ 1 * radius :=
        mul_le_mul_of_nonneg_right hone hrad
    _ = radius := one_mul radius

/-- C10 (witness): with radius 1, no bias and all three draws 0, the sampled
point is at distance 0 ≤ 1 from the center. -/
theorem randomInSphere_in_ball_witness :
    Real.sqrt ((randomInSphere 1 0 0 0 0).1 ^ 2 +
        ((randomInSphere 1 0 0 0 0).2.1 - 0) ^ 2 +
        (randomInSphere 1 0 0 0 0).2.2 ^ 2) ≤ 1 :=
  randomInSphere_in_ball 1 0 0 0 0 (by norm_num) (by norm_num) (by norm_num)
    (by norm_num) (by norm_num) (by norm_num) (by norm_num)
